import Mathlib

/-!
Verification of the uart-mcp connection registry and terminal layer.

This file shallowly embeds the core data model and operations of the
repository (src/uart_mcp/serial_manager.py, src/uart_mcp/terminal_manager.py,
src/uart_mcp/types.py, src/uart_mcp/errors.py) and proves properties about
them.  Python dictionaries become association lists, in-place mutation
becomes explicit state passing, raised exceptions become `Except` results,
and interactions with the physical serial device (pyserial) are abstracted
as explicit outcome parameters supplied by the environment.
-/

namespace UartMcp

/-! ## Value types (types.py) -/

/-- Parity enumeration (types.py, class Parity). -/
inductive Parity where
  | NONE
  | EVEN
  | ODD
  | MARK
  | SPACE
deriving DecidableEq, Repr

/-- The string value of a parity enum member (Python `Parity.X.value`). -/
def Parity.value : Parity → String
  | .NONE => "N"
  | .EVEN => "E"
  | .ODD => "O"
  | .MARK => "M"
  | .SPACE => "S"

/-- Python enum construction `Parity(v)`: the member whose value is `v`,
if any (raises ValueError otherwise, modelled as `none`). -/
def Parity.ofValue (v : String) : Option Parity :=
  if v = "N" then some .NONE
  else if v = "E" then some .EVEN
  else if v = "O" then some .ODD
  else if v = "M" then some .MARK
  else if v = "S" then some .SPACE
  else none

/-- Stop-bits enumeration (types.py, class StopBits). -/
inductive StopBits where
  | ONE
  | ONE_POINT_FIVE
  | TWO
deriving DecidableEq, Repr

/-- The numeric value of a stop-bits enum member (a Python float). -/
def StopBits.value : StopBits → Rat
  | .ONE => 1
  | .ONE_POINT_FIVE => 3 / 2
  | .TWO => 2

/-- Python enum construction `StopBits(v)`. -/
def StopBits.ofValue (v : Rat) : Option StopBits :=
  if v = 1 then some .ONE
  else if v = 3 / 2 then some .ONE_POINT_FIVE
  else if v = 2 then some .TWO
  else none

/-- Flow-control enumeration (types.py, class FlowControl). -/
inductive FlowControl where
  | NONE
  | HARDWARE
  | SOFTWARE
deriving DecidableEq, Repr

/-- The string value of a flow-control enum member. -/
def FlowControl.value : FlowControl → String
  | .NONE => "none"
  | .HARDWARE => "hardware"
  | .SOFTWARE => "software"

/-- Python enum construction `FlowControl(v)`. -/
def FlowControl.ofValue (v : String) : Option FlowControl :=
  if v = "none" then some .NONE
  else if v = "hardware" then some .HARDWARE
  else if v = "software" then some .SOFTWARE
  else none

/-- Terminal line-ending enumeration (types.py, class LineEnding). -/
inductive LineEnding where
  | CR
  | LF
  | CRLF
deriving DecidableEq, Repr

/-- The string value of a line-ending enum member. -/
def LineEnding.value : LineEnding → String
  | .CR => "\r"
  | .LF => "\n"
  | .CRLF => "\r\n"

/-- Supported baud rates (types.py, SUPPORTED_BAUDRATES). -/
def SUPPORTED_BAUDRATES : List Int :=
  [300, 600, 1200, 2400, 4800, 9600, 14400, 19200, 38400, 57600,
   115200, 230400, 460800, 921600]

/-- Supported byte sizes (types.py, SUPPORTED_BYTESIZES). -/
def SUPPORTED_BYTESIZES : List Int := [5, 6, 7, 8]

/-- Serial configuration record (types.py, dataclass SerialConfig). -/
structure SerialConfig where
  baudrate : Int
  bytesize : Int
  parity : Parity
  stopbits : StopBits
  flow_control : FlowControl
  read_timeout_ms : Int
  write_timeout_ms : Int
deriving DecidableEq, Repr

/-! ## Errors (errors.py)

Each constructor corresponds to one exception class.  `invalidParam`
carries the offending field name and a structured description of the
accepted set, standing for the reason string built at each raise site
of `_validate_and_create_config`. -/

/-- Structured rendering of the accepted-set reason string attached to an
InvalidParamError by `_validate_and_create_config`. -/
inductive AcceptedSet where
  | baudrates
  | bytesizes
  | parityValues
  | stopbitsValues
  | flowControlValues
  | timeoutRange
deriving DecidableEq, Repr

/-- Error kinds (errors.py exception classes). -/
inductive SerialError where
  | portNotFound (port : String)
  | portBusy (port : String)
  | portOpenFailed (port : String) (reason : String)
  | portClosed (port : String)
  | invalidParam (param : String) (accepted : AcceptedSet)
  | readTimeout (port : String)
  | writeFailed (port : String) (reason : String)
  | permissionDenied (port : String)
  | portBlacklisted (port : String)
  | sessionExists (session_id : String)
  | sessionNotFound (session_id : String)
  | portNotOpen (port : String)
  | sessionClosed (session_id : String)
  | sendCommandFailed (session_id : String) (reason : String)
  | invalidLineEnding (v : String)
deriving DecidableEq, Repr

/-! ## Parameter validation (serial_manager.py, _validate_and_create_config) -/

/-- Validation of raw configuration fields, in source check order:
baudrate, bytesize, parity, stopbits, flow_control, read_timeout_ms,
write_timeout_ms (serial_manager.py lines 344-412). -/
def validate_and_create_config (baudrate : Int) (bytesize : Int)
    (parity : String) (stopbits : Rat) (flow_control : String)
    (read_timeout_ms : Int) (write_timeout_ms : Int) :
    Except SerialError SerialConfig :=
  if baudrate ∉ SUPPORTED_BAUDRATES then
    .error (.invalidParam "baudrate" .baudrates)
  else if bytesize ∉ SUPPORTED_BYTESIZES then
    .error (.invalidParam "bytesize" .bytesizes)
  else
    match Parity.ofValue parity with
    | none => .error (.invalidParam "parity" .parityValues)
    | some parity_enum =>
      match StopBits.ofValue stopbits with
      | none => .error (.invalidParam "stopbits" .stopbitsValues)
      | some stopbits_enum =>
        match FlowControl.ofValue flow_control with
        | none => .error (.invalidParam "flow_control" .flowControlValues)
        | some flow_enum =>
          if read_timeout_ms < 0 ∨ read_timeout_ms > 60000 then
            .error (.invalidParam "read_timeout_ms" .timeoutRange)
          else if write_timeout_ms < 0 ∨ write_timeout_ms > 60000 then
            .error (.invalidParam "write_timeout_ms" .timeoutRange)
          else
            .ok {
              baudrate := baudrate
              bytesize := bytesize
              parity := parity_enum
              stopbits := stopbits_enum
              flow_control := flow_enum
              read_timeout_ms := read_timeout_ms
              write_timeout_ms := write_timeout_ms
            }

/-! ## Managed connections and the registry state (serial_manager.py)

A pyserial `Serial` object is abstracted as a `SerialHandle`: the fields
the core reads or writes (`is_open`, `in_waiting`, `timeout` in seconds),
plus `probe_ok`, which records whether touching `in_waiting` succeeds
(the liveness probe of `ManagedPort.is_connected` treats an exception
there as disconnection). -/

/-- Abstract physical serial handle (the pyserial `Serial` object). -/
structure SerialHandle where
  is_open : Bool
  in_waiting : Nat
  timeout : Rat
  probe_ok : Bool
deriving DecidableEq, Repr

/-- Managed serial connection (serial_manager.py, class ManagedPort).
`reconnecting` defaults to false and `auto_reconnect` to true, as in the
Python constructor. -/
structure ManagedPort where
  port : String
  handle : SerialHandle
  config : SerialConfig
  reconnecting : Bool := false
  auto_reconnect : Bool := true
deriving DecidableEq, Repr

/-- Liveness probe (ManagedPort.is_connected): true when the handle is
open and the `in_waiting` query does not raise. -/
def ManagedPort.is_connected (m : ManagedPort) : Bool :=
  m.handle.is_open && m.handle.probe_ok

/-- Registry state: the `_ports` dictionary of SerialManager, as an
association list from port path to managed connection. -/
abbrev SMState := List (String × ManagedPort)

/-- Dictionary lookup `self._ports[port]` / `port in self._ports`. -/
def lookupPort : SMState → String → Option ManagedPort
  | [], _ => none
  | (q, m) :: rest, p => if q = p then some m else lookupPort rest p

/-- Dictionary assignment `self._ports[port] = mp`: replaces the entry
for the key when present, otherwise appends a new entry. -/
def setPort : SMState → String → ManagedPort → SMState
  | [], p, mp => [(p, mp)]
  | (q, m) :: rest, p, mp =>
      if q = p then (p, mp) :: rest else (q, m) :: setPort rest p mp

/-- Dictionary removal `self._ports.pop(port)`. -/
def removePort : SMState → String → SMState
  | [], _ => []
  | (q, m) :: rest, p => if q = p then rest else (q, m) :: removePort rest p

/-- Port status record (types.py, dataclass PortStatus). -/
structure PortStatus where
  port : String
  is_open : Bool
  config : Option SerialConfig := none
  connected : Bool := false
  reconnecting : Bool := false
deriving DecidableEq, Repr

/-! ## Registry operations (serial_manager.py, class SerialManager)

External effects appear as parameters: `blacklisted` is the collaborator
result `get_blacklist_manager().is_blacklisted(port)`, and `createResult`
is the outcome of `_create_serial` (a fresh handle, or one of the
classified open errors). -/

/-- Opening a port (SerialManager.open_port, lines 267-342): blacklist
check, then parameter validation, then the idempotency check against the
registry, and only then physical creation and insertion. -/
def open_port (m : SMState) (port : String) (baudrate : Int) (bytesize : Int)
    (parity : String) (stopbits : Rat) (flow_control : String)
    (read_timeout_ms : Int) (write_timeout_ms : Int) (auto_reconnect : Bool)
    (blacklisted : Bool) (createResult : Except SerialError SerialHandle) :
    Except SerialError (PortStatus × SMState) :=
  if blacklisted then
    .error (.portBlacklisted port)
  else
    match validate_and_create_config baudrate bytesize parity stopbits
        flow_control read_timeout_ms write_timeout_ms with
    | .error e => .error e
    | .ok config =>
      match lookupPort m port with
      | some managed =>
          .ok ({ port := port, is_open := true, config := some managed.config,
                 connected := managed.is_connected,
                 reconnecting := managed.reconnecting }, m)
      | none =>
        match createResult with
        | .error e => .error e
        | .ok handle =>
          let managed : ManagedPort :=
            { port := port, handle := handle, config := config,
              auto_reconnect := auto_reconnect }
          .ok ({ port := port, is_open := true, config := some config,
                 connected := managed.is_connected,
                 reconnecting := false }, setPort m port managed)

/-- Closing a port (SerialManager.close_port, lines 414-437). -/
def close_port (m : SMState) (port : String) :
    Except SerialError SMState :=
  match lookupPort m port with
  | none => .error (.portClosed port)
  | some _ => .ok (removePort m port)

/-- Hot reconfiguration (SerialManager.set_config, lines 439-514): merge
the supplied fields onto the current configuration, validate the merge as
a whole, then apply it to the live handle and store it. `_apply_config`
is reflected in the handle's timeout field. -/
def set_config (m : SMState) (port : String)
    (baudrate : Option Int) (bytesize : Option Int) (parity : Option String)
    (stopbits : Option Rat) (flow_control : Option String)
    (read_timeout_ms : Option Int) (write_timeout_ms : Option Int) :
    Except SerialError (PortStatus × SMState) :=
  match lookupPort m port with
  | none => .error (.portClosed port)
  | some managed =>
    let cc := managed.config
    match validate_and_create_config (baudrate.getD cc.baudrate)
        (bytesize.getD cc.bytesize) (parity.getD cc.parity.value)
        (stopbits.getD cc.stopbits.value)
        (flow_control.getD cc.flow_control.value)
        (read_timeout_ms.getD cc.read_timeout_ms)
        (write_timeout_ms.getD cc.write_timeout_ms) with
    | .error e => .error e
    | .ok new_config =>
      let managed2 : ManagedPort :=
        { managed with
          config := new_config,
          handle := { managed.handle with
                      timeout := (new_config.read_timeout_ms : Rat) / 1000 } }
      .ok ({ port := port, is_open := true, config := some new_config,
             connected := managed2.is_connected,
             reconnecting := managed2.reconnecting }, setPort m port managed2)

/-- Status query (SerialManager.get_status, lines 557-580). -/
def get_status (m : SMState) (port : String) :
    Except SerialError PortStatus :=
  match lookupPort m port with
  | none => .error (.portClosed port)
  | some managed =>
      .ok { port := port, is_open := true, config := some managed.config,
            connected := managed.is_connected,
            reconnecting := managed.reconnecting }

/-- Modelled from the spec: `SerialManager.send_data` is not present in
the source tree (only its callers in tools/data_ops.py and
terminal_manager.py and its tests are).  Per spec section 4.1,
`send_data(id, bytes) -> bytes_written` fails with the port-closed error
if `id` is absent, and a failure of the underlying write surfaces as a
write-failure error.  `writeResult` is the outcome of the physical
write: the number of bytes written, or the failure description. -/
def send_data (m : SMState) (port : String) (data : List Nat)
    (writeResult : Except String Nat) : Except SerialError Nat :=
  match lookupPort m port with
  | none => .error (.portClosed port)
  | some _ =>
    match writeResult with
    | .ok n => .ok n
    | .error reason => .error (.writeFailed port reason)

/-- Modelled from the spec: `SerialManager.read_data` is not present in
the source tree (only its callers and tests are).  Per spec section 4.1,
`read_data(id, size?, timeout_ms?) -> bytes` fails if `id` is absent;
when `size` is omitted it reads exactly the number of bytes currently
reported available; when `timeout_ms` is supplied the handle's read
timeout is temporarily overridden and restored to the connection's
configured value afterward, regardless of outcome.  `devRead` maps the
requested byte count to the physical read outcome; a failing read is
surfaced here as a read-timeout error (the spec fixes no kind for it).
The result pairs the post-state with the outcome, and a successful
outcome carries the bytes together with the byte count that was
requested from the device. -/
def read_data (m : SMState) (port : String) (size : Option Nat)
    (timeout_ms : Option Int) (devRead : Nat → Except String (List Nat)) :
    SMState × Except SerialError (List Nat × Nat) :=
  match lookupPort m port with
  | none => (m, .error (.portClosed port))
  | some managed =>
    let req : Nat := size.getD managed.handle.in_waiting
    let outcome := devRead req
    let managed2 : ManagedPort :=
      match timeout_ms with
      | none => managed
      | some _ =>
        { managed with
          handle := { managed.handle with
                      timeout := (managed.config.read_timeout_ms : Rat) / 1000 } }
    let m2 := setPort m port managed2
    let res : Except SerialError (List Nat × Nat) :=
      match outcome with
      | .ok bytes => .ok (bytes, req)
      | .error _ => .error (.readTimeout port)
    (m2, res)

/-! ## Reconnect supervisor (serial_manager.py, lines 138-187) -/

/-- Phase 1 of `_check_and_reconnect` applied to one registry entry:
a port qualifies when auto-reconnect is on, it is not already
reconnecting, and the liveness probe fails; a qualifying entry has its
`reconnecting` flag set. -/
def reconnectQualifies (mp : ManagedPort) : Bool :=
  mp.auto_reconnect && !mp.is_connected && !mp.reconnecting

/-- Marking pass of `_check_and_reconnect` (lines 140-148): every
qualifying entry gets `reconnecting := true`. -/
def markReconnecting (m : SMState) : SMState :=
  m.map fun e =>
    if reconnectQualifies e.2 then (e.1, { e.2 with reconnecting := true })
    else e

/-- Selection pass of `_check_and_reconnect` (lines 140-148): the list of
(port, config) pairs handed to `_try_reconnect`, in registry order. -/
def selectReconnect (m : SMState) : List (String × SerialConfig) :=
  m.filterMap fun e =>
    if reconnectQualifies e.2 then some (e.1, e.2.config) else none

/-- Reconnection attempt (SerialManager._try_reconnect, lines 154-187).
`createResult` is the outcome of `_create_serial`; `s` is the registry
state at the moment the lock is re-taken (explicit close may have raced
the attempt).  On success with the entry still present, a fresh
ManagedPort is installed (new handle, the attempted config,
`reconnecting := false` by construction, `auto_reconnect` preserved from
the old entry); if the entry is gone the fresh handle is closed and
discarded, leaving the state unchanged.  On failure the `reconnecting`
flag of the entry, if still present, is cleared. -/
def try_reconnect (s : SMState) (port : String) (config : SerialConfig)
    (createResult : Except SerialError SerialHandle) : SMState :=
  match createResult with
  | .ok handle =>
    match lookupPort s port with
    | some old_managed =>
        setPort s port
          { port := port, handle := handle, config := config,
            auto_reconnect := old_managed.auto_reconnect }
    | none => s
  | .error _ =>
    match lookupPort s port with
    | some old_managed =>
        setPort s port { old_managed with reconnecting := false }
    | none => s

/-! ## Terminal session layer (terminal_manager.py)

Bytes are naturals; a buffer chunk is a list of bytes.  The deque
`_buffer` together with `_buffer_size` and `_max_buffer_size` becomes an
`OutputBuffer` record; the Python integer `_buffer_size` is an `Int`, as
the decrements in the eviction loop are plain integer arithmetic. -/

/-- Bounded output buffer of a terminal session: the `_buffer` deque
(oldest chunk first), the running total `_buffer_size`, and the capacity
`_max_buffer_size`. -/
structure OutputBuffer where
  chunks : List (List Nat)
  size : Int
  capacity : Int
deriving DecidableEq, Repr

/-- Sum of the lengths of the buffered chunks. -/
def chunksTotal (chunks : List (List Nat)) : Int :=
  (chunks.map fun c => (c.length : Int)).sum

/-- Eviction loop of `_append_to_buffer` (lines 156-158): while the total
exceeds capacity and the deque is nonempty, pop the oldest chunk and
subtract its length. -/
def evictOldest (cap : Int) : List (List Nat) → Int → List (List Nat) × Int
  | [], size => ([], size)
  | c :: rest, size =>
      if size > cap then evictOldest cap rest (size - c.length)
      else (c :: rest, size)

/-- Appending a chunk (TerminalSession._append_to_buffer, lines 143-158):
push the chunk, add its length to the total, then run the eviction loop. -/
def appendToBuffer (b : OutputBuffer) (data : List Nat) : OutputBuffer :=
  let chunks := b.chunks ++ [data]
  let size := b.size + data.length
  let res := evictOldest b.capacity chunks size
  { b with chunks := res.1, size := res.2 }

/-- Reading the buffer (TerminalSession.read_output, lines 160-180):
concatenate all chunks in arrival order; when `clear` is set, empty the
deque and zero the total. -/
def bufferReadOutput (b : OutputBuffer) (clear : Bool) :
    List Nat × OutputBuffer :=
  if b.chunks = [] then ([], b)
  else
    let result := b.chunks.flatten
    if clear then (result, { b with chunks := [], size := 0 })
    else (result, b)

/-- Clearing the buffer (TerminalSession.clear_buffer, lines 182-186). -/
def bufferClear (b : OutputBuffer) : OutputBuffer :=
  { b with chunks := [], size := 0 }

/-- Terminal session configuration (types.py, dataclass TerminalConfig). -/
structure TerminalConfig where
  line_ending : LineEnding
  local_echo : Bool
  buffer_size : Int
deriving DecidableEq, Repr

/-- Terminal session state (terminal_manager.py, class TerminalSession):
its configuration, the bounded output buffer, and the `_running` flag
backing the `is_active` property. -/
structure TerminalSession where
  session_id : String
  port : String
  config : TerminalConfig
  buffer : OutputBuffer
  running : Bool
deriving DecidableEq, Repr

/-! ## UTF-8 encoding (Python str.encode of send_command) -/

/-- UTF-8 encoding of a single character, as byte values. -/
def utf8EncodeChar (c : Char) : List Nat :=
  let n := c.toNat
  if n < 128 then [n]
  else if n < 2048 then
    [192 + n / 64, 128 + n % 64]
  else if n < 65536 then
    [224 + n / 4096, 128 + (n / 64) % 64, 128 + n % 64]
  else
    [240 + n / 262144, 128 + (n / 4096) % 64, 128 + (n / 64) % 64,
     128 + n % 64]

/-- UTF-8 encoding of a string (Python `data.encode` with utf-8). -/
def utf8Encode (s : String) : List Nat :=
  s.data.flatMap utf8EncodeChar

/-! ## Session operations (terminal_manager.py, class TerminalSession) -/

/-- Payload construction of send_command (lines 203-208): append the
configured line-ending string when requested, then UTF-8 encode. -/
def sendPayload (sess : TerminalSession) (command : String)
    (add_line_ending : Bool) : List Nat :=
  let data := if add_line_ending then command ++ sess.config.line_ending.value
              else command
  utf8Encode data

/-- Sending a command (TerminalSession.send_command, lines 188-220).
`writeResult` is the outcome of `manager.send_data` on the payload: the
byte count written, or the failure description (any failure is wrapped
into a send-command-failed error).  On success, local echo appends the
exact payload bytes to the session's own buffer. -/
def session_send_command (sess : TerminalSession) (command : String)
    (add_line_ending : Bool) (writeResult : Except String Nat) :
    Except SerialError (Nat × TerminalSession) :=
  let raw_data := sendPayload sess command add_line_ending
  match writeResult with
  | .ok bytes_written =>
      let sess2 :=
        if sess.config.local_echo then
          { sess with buffer := appendToBuffer sess.buffer raw_data }
        else sess
      .ok (bytes_written, sess2)
  | .error reason =>
      .error (.sendCommandFailed sess.session_id reason)

/-- Stopping a session (TerminalSession.stop, lines 110-121): clears the
`_running` flag (a no-op when already stopped). -/
def session_stop (sess : TerminalSession) : TerminalSession :=
  { sess with running := false }

/-! ## Reader loop (TerminalSession._read_loop, lines 123-141)

One iteration either obtains bytes from `manager.read_data` (possibly
empty) or sees it raise.  A raised read marks the session inactive and
breaks out of the loop; later events are never processed. -/

/-- Outcome of one reader-loop read against the connection registry. -/
inductive ReadEvent where
  | data (chunk : List Nat)
  | fail (msg : String)
deriving DecidableEq, Repr

/-- The reader loop over a sequence of read outcomes: nonempty chunks are
appended to the buffer; the first failing read sets `running := false`
and terminates the loop, ignoring everything after it. -/
def read_loop (sess : TerminalSession) : List ReadEvent → TerminalSession
  | [] => sess
  | .data chunk :: rest =>
      if chunk.isEmpty then read_loop sess rest
      else read_loop { sess with buffer := appendToBuffer sess.buffer chunk } rest
  | .fail _ :: _ => { sess with running := false }

/-! ## Session operations reachable on an existing session

`create_session` constructs a fresh session and is the only caller of
`start`; on a session that already exists, the operations reachable
through the Terminal Registry surface (close_session → stop,
send_command, read_output, clear_buffer) and the session's own
reader-loop events are the following. -/

/-- One operation applied to an existing terminal session. -/
inductive SessionOp where
  | stop
  | sendCommand (command : String) (add_line_ending : Bool)
      (writeResult : Except String Nat)
  | readOutput (clear : Bool)
  | clearBuffer
  | readData (chunk : List Nat)
  | readError (msg : String)
deriving Repr

/-- State evolution of a session under one operation.
`TerminalManager.send_command` raises session-closed on an inactive
session before any mutation, and `session_send_command` itself mutates
nothing when the write fails, so in both cases the state is unchanged. -/
def applySessionOp (sess : TerminalSession) : SessionOp → TerminalSession
  | .stop => session_stop sess
  | .sendCommand command ale writeResult =>
      if sess.running then
        match session_send_command sess command ale writeResult with
        | .ok res => res.2
        | .error _ => sess
      else sess
  | .readOutput clear => { sess with buffer := (bufferReadOutput sess.buffer clear).2 }
  | .clearBuffer => { sess with buffer := bufferClear sess.buffer }
  | .readData chunk =>
      if chunk.isEmpty then sess
      else { sess with buffer := appendToBuffer sess.buffer chunk }
  | .readError _ => { sess with running := false }

/-- A sequence of session operations, oldest first. -/
def applySessionOps (sess : TerminalSession) (ops : List SessionOp) :
    TerminalSession :=
  ops.foldl applySessionOp sess

/-! ## Sample values for concrete instantiations -/

/-- A configuration with the source defaults (types.py DEFAULT_x). -/
def sampleConfig : SerialConfig :=
  { baudrate := 9600, bytesize := 8, parity := .NONE, stopbits := .ONE,
    flow_control := .NONE, read_timeout_ms := 1000, write_timeout_ms := 1000 }

/-- A live handle with ten bytes reported available. -/
def sampleHandle : SerialHandle :=
  { is_open := true, in_waiting := 10, timeout := 1, probe_ok := true }

/-- A managed connection on port COM1 with the default configuration. -/
def sampleMp : ManagedPort :=
  { port := "COM1", handle := sampleHandle, config := sampleConfig }

/-! ## Helper lemmas -/

/-- Looking up a key just stored finds the stored record. -/
theorem lookupPort_setPort_self (m : SMState) (p : String) (mp : ManagedPort) :
    lookupPort (setPort m p mp) p = some mp := by
  induction m with
  | nil => simp [setPort, lookupPort]
  | cons e rest ih =>
      obtain ⟨q, r⟩ := e
      by_cases h : q = p
      · simp [setPort, lookupPort, h]
      · simp [setPort, lookupPort, h, ih]

/-- Looking up a different key is unaffected by a store. -/
theorem lookupPort_setPort_ne (m : SMState) (p q : String) (mp : ManagedPort)
    (h : q ≠ p) : lookupPort (setPort m p mp) q = lookupPort m q := by
  induction m with
  | nil => simp [setPort, lookupPort, Ne.symm h]
  | cons e rest ih =>
      obtain ⟨k, r⟩ := e
      by_cases hk : k = p
      · subst hk
        simp [setPort, lookupPort, Ne.symm h]
      · by_cases hq : k = q
        · subst hq
          simp [setPort, lookupPort, hk, Ne.symm h]
        · simp [setPort, lookupPort, hk, hq, ih]

/-- Unfolding lemma: eviction on the empty deque. -/
theorem evictOldest_nil (cap : Int) (size : Int) :
    evictOldest cap [] size = ([], size) := rfl

/-- Unfolding lemma: one step of the eviction loop. -/
theorem evictOldest_cons (cap : Int) (c : List Nat) (rest : List (List Nat))
    (size : Int) :
    evictOldest cap (c :: rest) size =
      if size > cap then evictOldest cap rest (size - c.length)
      else (c :: rest, size) := rfl

/-- Total of an empty chunk list. -/
theorem chunksTotal_nil : chunksTotal [] = 0 := rfl

/-- Total of a nonempty chunk list. -/
theorem chunksTotal_cons (c : List Nat) (cs : List (List Nat)) :
    chunksTotal (c :: cs) = c.length + chunksTotal cs := by
  simp [chunksTotal]

/-- Total of a concatenation of chunk lists. -/
theorem chunksTotal_append (a b : List (List Nat)) :
    chunksTotal (a ++ b) = chunksTotal a + chunksTotal b := by
  simp [chunksTotal]

/-- The last element of a list extended by a singleton. -/
theorem getLast?_append_singleton {α : Type} (l : List α) (d : α) :
    (l ++ [d]).getLast? = some d := by
  rw [List.getLast?_append_cons]
  rfl

/-- The eviction loop drops a prefix of the chunk list and subtracts
exactly the dropped lengths from the running total. -/
theorem evictOldest_drops_prefix (cap : Int) (chunks : List (List Nat))
    (size : Int) :
    ∃ pre, chunks = pre ++ (evictOldest cap chunks size).1 ∧
      (evictOldest cap chunks size).2 = size - chunksTotal pre := by
  induction chunks generalizing size with
  | nil => exact ⟨[], by simp [evictOldest_nil, chunksTotal_nil]⟩
  | cons c rest ih =>
      rw [evictOldest_cons]
      by_cases h : size > cap
      · rw [if_pos h]
        obtain ⟨pre, hpre, hsz⟩ := ih (size - c.length)
        refine ⟨c :: pre, by rw [List.cons_append, ← hpre], ?_⟩
        rw [hsz, chunksTotal_cons]
        ring
      · exact ⟨[], by rw [if_neg h]; simp [chunksTotal_nil]⟩

/-- When the running total is accurate, it stays accurate through the
eviction loop. -/
theorem evictOldest_total (cap : Int) (chunks : List (List Nat)) (size : Int)
    (h : size = chunksTotal chunks) :
    (evictOldest cap chunks size).2 =
      chunksTotal (evictOldest cap chunks size).1 := by
  induction chunks generalizing size with
  | nil => simpa [evictOldest_nil, chunksTotal_nil] using h
  | cons c rest ih =>
      rw [evictOldest_cons]
      by_cases hgt : size > cap
      · rw [if_pos hgt]
        exact ih _ (by rw [h, chunksTotal_cons]; ring)
      · rw [if_neg hgt]
        exact h

/-- When the running total is accurate and the capacity is nonnegative,
the eviction loop drives the total to at most the capacity. -/
theorem evictOldest_le_cap (cap : Int) (chunks : List (List Nat)) (size : Int)
    (hcap : 0 ≤ cap) (h : size = chunksTotal chunks) :
    (evictOldest cap chunks size).2 ≤ cap := by
  induction chunks generalizing size with
  | nil =>
      rw [chunksTotal_nil] at h
      rw [evictOldest_nil]
      omega
  | cons c rest ih =>
      rw [evictOldest_cons]
      by_cases hgt : size > cap
      · rw [if_pos hgt]
        exact ih _ (by rw [h, chunksTotal_cons]; ring)
      · rw [if_neg hgt]
        omega

/-- When the running total is accurate, the capacity is nonnegative and
the final chunk fits within the capacity on its own, the eviction loop
retains the final chunk. -/
theorem evictOldest_retains_last (cap : Int) (cs : List (List Nat))
    (d : List Nat) (size : Int)
    (h : size = chunksTotal (cs ++ [d])) (hd : (d.length : Int) ≤ cap) :
    (evictOldest cap (cs ++ [d]) size).1.getLast? = some d := by
  induction cs generalizing size with
  | nil =>
      have hsz : size = (d.length : Int) := by
        rw [h, List.nil_append, chunksTotal_cons, chunksTotal_nil]
        ring
      have hle : ¬ size > cap := by omega
      rw [List.nil_append, evictOldest_cons, if_neg hle]
      rfl
  | cons c rest ih =>
      rw [List.cons_append, evictOldest_cons]
      by_cases hgt : size > cap
      · rw [if_pos hgt]
        exact ih _ (by rw [h, List.cons_append, chunksTotal_cons]; ring)
      · rw [if_neg hgt]
        exact getLast?_append_singleton (c :: rest) d

/-- Concatenation distributes over UTF-8 encoding. -/
theorem utf8Encode_append (s t : String) :
    utf8Encode (s ++ t) = utf8Encode s ++ utf8Encode t := by
  simp [utf8Encode, String.data_append, List.flatMap_append]

/-! ## Claim theorems -/

/-- C3 (counterexample): appending a single chunk of three bytes to an
empty buffer of capacity two makes the sizes sum past the capacity, yet
the eviction loop evicts the freshly appended chunk itself, so the most
recently appended bytes are not retained — the buffer ends empty. -/
theorem C3_counterexample :
    chunksTotal [[1, 2, 3]] > 2 ∧
    appendToBuffer { chunks := [], size := 0, capacity := 2 } [1, 2, 3] =
      { chunks := [], size := 0, capacity := 2 } := by
  constructor
  · decide
  · rfl

/-- C3 (amended): for a buffer with an accurate running total and a
nonnegative capacity N, after an append's eviction settles the tracked
total is at most N and still accurate, the evicted chunks form a prefix
of the pre-eviction deque (only oldest chunks are dropped, each as a
whole chunk), and the most recently appended chunk is retained provided
its own size is at most N — a chunk larger than N is itself evicted. -/
theorem C3_bounded_buffer_eviction (b : OutputBuffer) (data : List Nat)
    (hinv : b.size = chunksTotal b.chunks) (hcap : 0 ≤ b.capacity) :
    (appendToBuffer b data).size ≤ b.capacity ∧
    (appendToBuffer b data).size = chunksTotal (appendToBuffer b data).chunks ∧
    (∃ pre, b.chunks ++ [data] = pre ++ (appendToBuffer b data).chunks) ∧
    ((data.length : Int) ≤ b.capacity →
      (appendToBuffer b data).chunks.getLast? = some data) := by
  have htot : b.size + (data.length : Int) =
      chunksTotal (b.chunks ++ [data]) := by
    rw [hinv, chunksTotal_append, chunksTotal_cons, chunksTotal_nil]
    ring
  refine ⟨?_, ?_, ?_, ?_⟩
  · exact evictOldest_le_cap b.capacity _ _ hcap htot
  · exact evictOldest_total b.capacity _ _ htot
  · obtain ⟨pre, hpre, _⟩ :=
      evictOldest_drops_prefix b.capacity (b.chunks ++ [data])
        (b.size + data.length)
    exact ⟨pre, hpre⟩
  · intro hd
    exact evictOldest_retains_last b.capacity b.chunks data _ htot hd

/-- C3 (witness): the amended statement applied to the concrete buffer
of capacity 4 holding one two-byte chunk, appending a three-byte chunk. -/
theorem C3_bounded_buffer_eviction_witness :
    (appendToBuffer { chunks := [[9, 9]], size := 2, capacity := 4 }
        [1, 2, 3]).size ≤ 4 ∧
    (appendToBuffer { chunks := [[9, 9]], size := 2, capacity := 4 }
        [1, 2, 3]).size =
      chunksTotal (appendToBuffer { chunks := [[9, 9]], size := 2, capacity := 4 }
        [1, 2, 3]).chunks ∧
    (∃ pre, [[9, 9]] ++ [[1, 2, 3]] =
      pre ++ (appendToBuffer { chunks := [[9, 9]], size := 2, capacity := 4 }
        [1, 2, 3]).chunks) ∧
    (((3 : Nat) : Int) ≤ 4 →
      (appendToBuffer { chunks := [[9, 9]], size := 2, capacity := 4 }
        [1, 2, 3]).chunks.getLast? = some [1, 2, 3]) :=
  C3_bounded_buffer_eviction
    { chunks := [[9, 9]], size := 2, capacity := 4 } [1, 2, 3]
    (by decide) (by decide)

/-- C8: for a buffer whose tracked total is accurate, every buffer
operation — append, read with or without clearing, and clear — leaves
the tracked total equal to the sum of the lengths of the chunks present,
and an append additionally drives the total to at most the capacity
whenever the capacity is nonnegative. -/
theorem C8_buffer_total_invariant (b : OutputBuffer)
    (hinv : b.size = chunksTotal b.chunks) :
    (∀ data : List Nat,
      (appendToBuffer b data).size =
        chunksTotal (appendToBuffer b data).chunks ∧
      (0 ≤ b.capacity → (appendToBuffer b data).size ≤ b.capacity)) ∧
    (∀ clear, ((bufferReadOutput b clear).2).size =
      chunksTotal ((bufferReadOutput b clear).2).chunks) ∧
    (bufferClear b).size = chunksTotal (bufferClear b).chunks := by
  refine ⟨?_, ?_, ?_⟩
  · intro data
    have htot : b.size + (data.length : Int) =
        chunksTotal (b.chunks ++ [data]) := by
      rw [hinv, chunksTotal_append, chunksTotal_cons, chunksTotal_nil]
      ring
    exact ⟨evictOldest_total b.capacity _ _ htot,
      fun hcap => evictOldest_le_cap b.capacity _ _ hcap htot⟩
  · intro clear
    by_cases hempty : b.chunks = []
    · simp [bufferReadOutput, hempty, hinv]
    · by_cases hclear : clear = true
      · simp [bufferReadOutput, hempty, hclear, chunksTotal_nil]
      · simp [bufferReadOutput, hempty, hclear, hinv]
  · simp [bufferClear, chunksTotal_nil]

/-- C8 (witness): the invariant statement applied to the concrete buffer
of capacity 3 holding chunks of lengths 2 and 1. -/
theorem C8_buffer_total_invariant_witness :
    (∀ data : List Nat,
      (appendToBuffer { chunks := [[7, 7], [5]], size := 3, capacity := 3 }
        data).size =
        chunksTotal (appendToBuffer
          { chunks := [[7, 7], [5]], size := 3, capacity := 3 } data).chunks ∧
      ((0 : Int) ≤ 3 →
        (appendToBuffer { chunks := [[7, 7], [5]], size := 3, capacity := 3 }
          data).size ≤ 3)) ∧
    (∀ clear, ((bufferReadOutput
        { chunks := [[7, 7], [5]], size := 3, capacity := 3 } clear).2).size =
      chunksTotal ((bufferReadOutput
        { chunks := [[7, 7], [5]], size := 3, capacity := 3 } clear).2).chunks) ∧
    (bufferClear { chunks := [[7, 7], [5]], size := 3, capacity := 3 }).size =
      chunksTotal (bufferClear
        { chunks := [[7, 7], [5]], size := 3, capacity := 3 }).chunks :=
  C8_buffer_total_invariant
    { chunks := [[7, 7], [5]], size := 3, capacity := 3 } (by decide)

/-- C7: for a session configured with line ending CRLF, send_command with
add_line_ending set writes exactly the UTF-8 bytes of the text followed
by the two bytes 13 10 (carriage return, line feed); and when local echo
is on, a successful send appends exactly the written bytes to the
session's own buffer, the returned count being the underlying write's. -/
theorem C7_send_command_crlf (sess : TerminalSession) (text : String)
    (n : Nat) (hle : sess.config.line_ending = LineEnding.CRLF) :
    sendPayload sess text true = utf8Encode text ++ [13, 10] ∧
    (sess.config.local_echo = true →
      session_send_command sess text true (.ok n) =
        .ok (n, { sess with
          buffer := appendToBuffer sess.buffer
            (utf8Encode text ++ [13, 10]) })) := by
  have hcrlf : utf8Encode "\r\n" = [13, 10] := by decide
  have hval : LineEnding.CRLF.value = "\r\n" := rfl
  have hpayload : sendPayload sess text true = utf8Encode text ++ [13, 10] := by
    simp [sendPayload, hle, hval, utf8Encode_append, hcrlf]
  refine ⟨hpayload, fun hecho => ?_⟩
  rw [session_send_command]
  simp [hpayload, hecho]

/-- C7 (witness): the statement applied to a concrete CRLF session with
local echo enabled, sending the text "AT". -/
theorem C7_send_command_crlf_witness :
    sendPayload
      { session_id := "COM1", port := "COM1",
        config := { line_ending := .CRLF, local_echo := true,
                    buffer_size := 64 },
        buffer := { chunks := [], size := 0, capacity := 64 },
        running := true } "AT" true = utf8Encode "AT" ++ [13, 10] ∧
    ((true : Bool) = true →
      session_send_command
        { session_id := "COM1", port := "COM1",
          config := { line_ending := .CRLF, local_echo := true,
                      buffer_size := 64 },
          buffer := { chunks := [], size := 0, capacity := 64 },
          running := true } "AT" true (.ok 4) =
        .ok (4,
          { session_id := "COM1", port := "COM1",
            config := { line_ending := .CRLF, local_echo := true,
                        buffer_size := 64 },
            buffer := appendToBuffer { chunks := [], size := 0, capacity := 64 }
              (utf8Encode "AT" ++ [13, 10]),
            running := true })) :=
  C7_send_command_crlf
    { session_id := "COM1", port := "COM1",
      config := { line_ending := .CRLF, local_echo := true,
                  buffer_size := 64 },
      buffer := { chunks := [], size := 0, capacity := 64 },
      running := true } "AT" 4 rfl

/-- One session operation never turns the active flag back on. -/
theorem applySessionOp_running_mono (sess : TerminalSession) (op : SessionOp)
    (h : (applySessionOp sess op).running = true) : sess.running = true := by
  cases op with
  | stop => simp [applySessionOp, session_stop] at h
  | sendCommand command ale writeResult =>
      by_cases hr : sess.running
      · exact hr
      · rw [applySessionOp, if_neg hr] at h
        exact h
  | readOutput clear => exact h
  | clearBuffer => exact h
  | readData chunk =>
      by_cases hc : chunk.isEmpty
      · rw [applySessionOp, if_pos hc] at h
        exact h
      · rw [applySessionOp, if_neg hc] at h
        exact h
  | readError msg => simp [applySessionOp] at h

/-- C9: the active flag of a terminal session moves from true to false at
most once and never back: across any sequence of registry-reachable
session operations (stop, send_command, read_output, clear_buffer, and
reader-loop read outcomes), an active result implies the session was
active before, so a stopped session stays stopped.  Moreover the reader
loop terminates at its first failing read, ignoring every later event,
and any run containing a failing read leaves the session inactive. -/
theorem C9_active_transitions_once :
    (∀ sess ops, (applySessionOps sess ops).running = true →
      sess.running = true) ∧
    (∀ sess pre msg rest,
      read_loop sess (pre ++ ReadEvent.fail msg :: rest) =
        read_loop sess (pre ++ [ReadEvent.fail msg])) ∧
    (∀ sess events msg, ReadEvent.fail msg ∈ events →
      (read_loop sess events).running = false) := by
  refine ⟨?_, ?_, ?_⟩
  · intro sess ops
    induction ops generalizing sess with
    | nil => exact fun h => h
    | cons op rest ih =>
        intro h
        exact applySessionOp_running_mono sess op
          (ih (applySessionOp sess op) h)
  · intro sess pre msg rest
    induction pre generalizing sess with
    | nil => rfl
    | cons ev pre ih =>
        cases ev with
        | data chunk =>
            by_cases hc : chunk.isEmpty
            · simpa [read_loop, hc] using ih sess
            · simpa [read_loop, hc] using
                ih { sess with buffer := appendToBuffer sess.buffer chunk }
        | fail m => rfl
  · intro sess events msg hmem
    induction events generalizing sess with
    | nil => cases hmem
    | cons ev rest ih =>
        cases ev with
        | data chunk =>
            have hmem2 : ReadEvent.fail msg ∈ rest := by
              rcases List.mem_cons.mp hmem with h | h
              · simp at h
              · exact h
            by_cases hc : chunk.isEmpty
            · simpa [read_loop, hc] using ih sess hmem2
            · simpa [read_loop, hc] using
                ih { sess with buffer := appendToBuffer sess.buffer chunk } hmem2
        | fail m => rfl

/-- C9 (witness): both temporal parts applied at concrete inputs — an
operation sequence that stops a live session and then sends to it, and a
reader-loop run hitting a failing read. -/
theorem C9_active_transitions_once_witness :
    ((applySessionOps
        { session_id := "COM1", port := "COM1",
          config := { line_ending := .LF, local_echo := false,
                      buffer_size := 8 },
          buffer := { chunks := [], size := 0, capacity := 8 },
          running := false }
        [SessionOp.sendCommand "x" true (.ok 1), SessionOp.clearBuffer]).running
      = true →
      ((false : Bool) = true)) ∧
    (read_loop
        { session_id := "COM1", port := "COM1",
          config := { line_ending := .LF, local_echo := false,
                      buffer_size := 8 },
          buffer := { chunks := [], size := 0, capacity := 8 },
          running := true }
        [ReadEvent.data [1], ReadEvent.fail "closed"]).running = false :=
  ⟨fun h => C9_active_transitions_once.1
      { session_id := "COM1", port := "COM1",
        config := { line_ending := .LF, local_echo := false,
                    buffer_size := 8 },
        buffer := { chunks := [], size := 0, capacity := 8 },
        running := false }
      [SessionOp.sendCommand "x" true (.ok 1), SessionOp.clearBuffer] h,
   C9_active_transitions_once.2.2
      { session_id := "COM1", port := "COM1",
        config := { line_ending := .LF, local_echo := false,
                    buffer_size := 8 },
        buffer := { chunks := [], size := 0, capacity := 8 },
        running := true }
      [ReadEvent.data [1], ReadEvent.fail "closed"] "closed"
      (by simp)⟩

/-- C1: the registry send operation fails with the port-closed error on
every id absent from the registry; on every id present it returns the
number of bytes the underlying write reports, and a failure of the
underlying write surfaces as a write-failure error carrying the failure
reason — never as any other error kind. -/
theorem C1_send_data_errors (m : SMState) (port : String) (data : List Nat)
    (n : Nat) (reason : String) :
    (lookupPort m port = none →
      ∀ writeResult, send_data m port data writeResult =
        .error (.portClosed port)) ∧
    (∀ mp, lookupPort m port = some mp →
      send_data m port data (.ok n) = .ok n ∧
      send_data m port data (.error reason) =
        .error (.writeFailed port reason)) := by
  constructor
  · intro habs writeResult
    rw [send_data.eq_def, habs]
  · intro mp hmp
    rw [send_data.eq_def, send_data.eq_def, hmp]
    exact ⟨rfl, rfl⟩

/-- C1 (witness): the statement applied to the empty registry for the
absent case and to a one-entry registry for the present cases. -/
theorem C1_send_data_errors_witness :
    send_data [] "COM1" [65] (.ok 3) = .error (.portClosed "COM1") ∧
    send_data [("COM1", sampleMp)] "COM1" [65] (.ok 3) = .ok 3 ∧
    send_data [("COM1", sampleMp)] "COM1" [65] (.error "boom") =
      .error (.writeFailed "COM1" "boom") :=
  ⟨(C1_send_data_errors [] "COM1" [65] 3 "boom").1 rfl (.ok 3),
   ((C1_send_data_errors [("COM1", sampleMp)] "COM1" [65] 3 "boom").2
      sampleMp rfl).1,
   ((C1_send_data_errors [("COM1", sampleMp)] "COM1" [65] 3 "boom").2
      sampleMp rfl).2⟩

/-- C2: for an open port, a read with a supplied timeout override leaves
the connection's read timeout equal to the value configured before the
call (the stored configuration itself unchanged), whatever the physical
read's outcome; and a read with the size omitted requests from the
device exactly the number of bytes reported available at the moment of
the call. -/
theorem C2_read_data_timeout_restore (m : SMState) (port : String)
    (mp : ManagedPort) (h : lookupPort m port = some mp) :
    (∀ size t devRead, ∃ mp2,
      lookupPort (read_data m port size (some t) devRead).1 port = some mp2 ∧
      mp2.handle.timeout = (mp.config.read_timeout_ms : Rat) / 1000 ∧
      mp2.config = mp.config) ∧
    (∀ tms devRead bytes,
      devRead mp.handle.in_waiting = .ok bytes →
      (read_data m port none tms devRead).2 =
        .ok (bytes, mp.handle.in_waiting)) := by
  constructor
  · intro size t devRead
    refine ⟨{ mp with
      handle := { mp.handle with
                  timeout := (mp.config.read_timeout_ms : Rat) / 1000 } },
      ?_, rfl, rfl⟩
    rw [read_data.eq_def, h]
    exact lookupPort_setPort_self m port _
  · intro tms devRead bytes hdev
    rw [read_data.eq_def, h]
    simp [hdev]

/-- C2 (witness): the statement applied to a one-entry registry, with a
device read that returns as many bytes as requested. -/
theorem C2_read_data_timeout_restore_witness :
    (∃ mp2,
      lookupPort (read_data [("COM1", sampleMp)] "COM1" none (some 50)
        (fun k => .ok (List.replicate k 0))).1 "COM1" = some mp2 ∧
      mp2.handle.timeout = ((1000 : Int) : Rat) / 1000 ∧
      mp2.config = sampleConfig) ∧
    (read_data [("COM1", sampleMp)] "COM1" none (some 50)
        (fun k => .ok (List.replicate k 0))).2 =
      .ok (List.replicate 10 0, 10) :=
  ⟨(C2_read_data_timeout_restore [("COM1", sampleMp)] "COM1" sampleMp
      rfl).1 none 50 (fun k => .ok (List.replicate k 0)),
   (C2_read_data_timeout_restore [("COM1", sampleMp)] "COM1" sampleMp
      rfl).2 (some 50) (fun k => .ok (List.replicate k 0))
      (List.replicate 10 0) rfl⟩

/-- C10: the blacklist check in open_port precedes both parameter
validation and the idempotency lookup: for a blacklisted id, open_port
returns the device-blacklisted error for every registry state, every
configuration (valid or not), and every physical-open outcome, so the
registry is neither consulted nor mutated. -/
theorem C10_blacklist_first (m : SMState) (port : String)
    (baudrate bytesize : Int) (parity : String) (stopbits : Rat)
    (flow_control : String) (read_timeout_ms write_timeout_ms : Int)
    (auto_reconnect : Bool)
    (createResult : Except SerialError SerialHandle) :
    open_port m port baudrate bytesize parity stopbits flow_control
      read_timeout_ms write_timeout_ms auto_reconnect true createResult =
      .error (.portBlacklisted port) := by
  rw [open_port]
  simp

/-- C4: open_port is idempotent.  A first call on an absent,
non-blacklisted id with a valid configuration stores that configuration;
a second call on the same id with any valid configuration (possibly
different) succeeds for every physical-open outcome — so no new physical
resource is created — returns the registry state unchanged — so the
stored configuration is not overwritten — and reports a status whose
configuration is the one stored by the first call. -/
theorem C4_open_port_idempotent (m : SMState) (port : String)
    (b1 bs1 : Int) (p1 : String) (sb1 : Rat) (fc1 : String) (rt1 wt1 : Int)
    (ar1 : Bool) (hdl : SerialHandle)
    (b2 bs2 : Int) (p2 : String) (sb2 : Rat) (fc2 : String) (rt2 wt2 : Int)
    (ar2 : Bool) (cfg1 cfg2 : SerialConfig)
    (habs : lookupPort m port = none)
    (hv1 : validate_and_create_config b1 bs1 p1 sb1 fc1 rt1 wt1 = .ok cfg1)
    (hv2 : validate_and_create_config b2 bs2 p2 sb2 fc2 rt2 wt2 = .ok cfg2) :
    ∃ st1 m1,
      open_port m port b1 bs1 p1 sb1 fc1 rt1 wt1 ar1 false (.ok hdl) =
        .ok (st1, m1) ∧
      st1.config = some cfg1 ∧
      ∀ createResult, ∃ st2,
        open_port m1 port b2 bs2 p2 sb2 fc2 rt2 wt2 ar2 false createResult =
          .ok (st2, m1) ∧
        st2.config = some cfg1 := by
  have h1 : open_port m port b1 bs1 p1 sb1 fc1 rt1 wt1 ar1 false (.ok hdl) =
      .ok ({ port := port, is_open := true, config := some cfg1,
             connected := (ManagedPort.is_connected
               { port := port, handle := hdl, config := cfg1,
                 auto_reconnect := ar1 }),
             reconnecting := false },
           setPort m port
             { port := port, handle := hdl, config := cfg1,
               auto_reconnect := ar1 }) := by
    rw [open_port, if_neg (by simp), hv1, habs]
  refine ⟨_, _, h1, rfl, fun createResult => ?_⟩
  have h2 : lookupPort
      (setPort m port
        { port := port, handle := hdl, config := cfg1,
          auto_reconnect := ar1 }) port =
      some { port := port, handle := hdl, config := cfg1,
             auto_reconnect := ar1 } :=
    lookupPort_setPort_self m port _
  exact ⟨{ port := port, is_open := true, config := some cfg1,
           connected := ({ port := port, handle := hdl, config := cfg1,
                           auto_reconnect := ar1 } : ManagedPort).is_connected,
           reconnecting := false },
         by rw [open_port, if_neg (by simp), hv2, h2], rfl⟩

/-- C4 (witness): the statement applied at a concrete absent port, first
call with the default configuration, second call with a different valid
baud rate; the second call's result is read off for a failing physical
open, confirming no resource creation is needed. -/
theorem C4_open_port_idempotent_witness :
    ∃ st1 m1,
      open_port [] "COM1" 9600 8 "N" 1 "none" 1000 1000 true false
        (.ok sampleHandle) = .ok (st1, m1) ∧
      st1.config = some sampleConfig ∧
      ∀ createResult, ∃ st2,
        open_port m1 "COM1" 115200 8 "N" 1 "none" 1000 1000 true false
          createResult = .ok (st2, m1) ∧
        st2.config = some sampleConfig :=
  C4_open_port_idempotent [] "COM1" 9600 8 "N" 1 "none" 1000 1000 true
    sampleHandle 115200 8 "N" 1 "none" 1000 1000 true sampleConfig
    { sampleConfig with baudrate := 115200 } rfl rfl rfl

/-- Every entry of the marked registry fails the reconnect
qualification, so a second marking pass selects nothing. -/
theorem markReconnecting_disqualifies (m : SMState) :
    ∀ ent ∈ markReconnecting m, reconnectQualifies ent.2 = false := by
  intro ent hent
  rw [markReconnecting, List.mem_map] at hent
  obtain ⟨e, _, he⟩ := hent
  by_cases hq : reconnectQualifies e.2
  · rw [if_pos hq] at he
    subst he
    simp [reconnectQualifies]
  · rw [if_neg hq] at he
    subst he
    exact Bool.not_eq_true _ ▸ eq_false_of_ne_true hq

/-- C5: in one supervisor step, a port is selected for a reconnection
attempt exactly when its auto_reconnect flag is on, its reconnecting
flag is off and its liveness probe fails; the marking pass sets the
reconnecting flag of every selected entry before any attempt starts, so
a rerun of the selection finds nothing — at most one attempt per id is
ever in flight.  A successful recreation installs the new handle with
auto_reconnect preserved and reconnecting cleared when the entry still
exists, and leaves the registry untouched (the fresh handle discarded)
when the entry was removed meanwhile; a failed recreation clears the
reconnecting flag of a still-present entry and otherwise changes
nothing. -/
theorem C5_reconnect_supervisor (m s : SMState) (port : String)
    (cfg : SerialConfig) (hdl : SerialHandle) (err : SerialError) :
    ((port, cfg) ∈ selectReconnect m ↔
      ∃ mp, (port, mp) ∈ m ∧ mp.auto_reconnect = true ∧
        mp.is_connected = false ∧ mp.reconnecting = false ∧
        cfg = mp.config) ∧
    (∀ ent ∈ m, reconnectQualifies ent.2 = true →
      (ent.1, { ent.2 with reconnecting := true }) ∈ markReconnecting m) ∧
    selectReconnect (markReconnecting m) = [] ∧
    (∀ old, lookupPort s port = some old →
      lookupPort (try_reconnect s port cfg (.ok hdl)) port =
        some { port := port, handle := hdl, config := cfg,
               reconnecting := false,
               auto_reconnect := old.auto_reconnect }) ∧
    (lookupPort s port = none → try_reconnect s port cfg (.ok hdl) = s) ∧
    (∀ old, lookupPort s port = some old →
      lookupPort (try_reconnect s port cfg (.error err)) port =
        some { old with reconnecting := false }) ∧
    (lookupPort s port = none → try_reconnect s port cfg (.error err) = s) := by
  refine ⟨?_, ?_, ?_, ?_, ?_, ?_, ?_⟩
  · constructor
    · intro hmem
      rw [selectReconnect, List.mem_filterMap] at hmem
      obtain ⟨⟨q, mp⟩, hent, hf⟩ := hmem
      by_cases hq : reconnectQualifies mp
      · rw [if_pos hq] at hf
        obtain ⟨hq1, hcfg⟩ := Prod.mk.injEq .. ▸ Option.some.injEq .. ▸ hf
        simp only at hq1 hcfg
        rw [reconnectQualifies, Bool.and_eq_true, Bool.and_eq_true] at hq
        exact ⟨mp, hq1 ▸ hent, hq.1.1,
          by simpa using hq.1.2, by simpa using hq.2, hcfg.symm⟩
      · rw [if_neg hq] at hf
        cases hf
    · rintro ⟨mp, hmem, har, hconn, hrec, rfl⟩
      rw [selectReconnect, List.mem_filterMap]
      refine ⟨(port, mp), hmem, ?_⟩
      have hq : reconnectQualifies mp = true := by
        rw [reconnectQualifies, har, hconn, hrec]
        rfl
      rw [if_pos hq]
  · intro ent hent hq
    rw [markReconnecting, List.mem_map]
    exact ⟨ent, hent, by rw [if_pos hq]⟩
  · rw [selectReconnect, List.filterMap_eq_nil_iff]
    intro ent hent
    rw [if_neg]
    rw [markReconnecting_disqualifies m ent hent]
    exact Bool.false_ne_true
  · intro old hold
    rw [try_reconnect, hold]
    exact lookupPort_setPort_self s port _
  · intro hnone
    rw [try_reconnect, hnone]
  · intro old hold
    rw [try_reconnect, hold]
    exact lookupPort_setPort_self s port _
  · intro hnone
    rw [try_reconnect, hnone]

/-- C5 (witness): the statement applied to a concrete one-entry registry
whose port is disconnected: the port is selected, and both reconnection
outcomes are evaluated on a concrete post-race state. -/
theorem C5_reconnect_supervisor_witness :
    (("COM1", sampleConfig) ∈
      selectReconnect [("COM1",
        { port := "COM1",
          handle := { is_open := false, in_waiting := 0, timeout := 1,
                      probe_ok := false },
          config := sampleConfig })] ↔
      ∃ mp, ("COM1", mp) ∈ [("COM1",
        ({ port := "COM1",
           handle := { is_open := false, in_waiting := 0, timeout := 1,
                       probe_ok := false },
           config := sampleConfig } : ManagedPort))] ∧
        mp.auto_reconnect = true ∧ mp.is_connected = false ∧
        mp.reconnecting = false ∧ sampleConfig = mp.config) ∧
    lookupPort (try_reconnect [("COM1", sampleMp)] "COM1" sampleConfig
        (.ok sampleHandle)) "COM1" =
      some { port := "COM1", handle := sampleHandle, config := sampleConfig,
             reconnecting := false, auto_reconnect := true } ∧
    try_reconnect [] "COM1" sampleConfig (.ok sampleHandle) = [] := by
  have h := C5_reconnect_supervisor
    [("COM1",
      { port := "COM1",
        handle := { is_open := false, in_waiting := 0, timeout := 1,
                    probe_ok := false },
        config := sampleConfig })]
    [("COM1", sampleMp)] "COM1" sampleConfig sampleHandle
    (.portClosed "COM1")
  have h2 := C5_reconnect_supervisor [] [] "COM1" sampleConfig sampleHandle
    (.portClosed "COM1")
  exact ⟨h.1, h.2.2.2.1 sampleMp rfl, h2.2.2.2.2.1 rfl⟩

/-- C6: configuration validation for open_port and set_config.  When
every field lies in its supported set, validation succeeds with a
configuration echoing the given values exactly; when a field lies
outside its set, validation fails with an invalid-parameter error naming
the first offending field in check order (baudrate, bytesize, parity,
stopbits, flow_control, read_timeout_ms, write_timeout_ms) together with
its accepted set.  A validation error makes open_port (on a
non-blacklisted id) and set_config (on a present id) fail with exactly
that error, producing no new registry state, while a fresh open_port
success stores exactly the validated configuration. -/
theorem C6_validation (b bs : Int) (p : String) (sb : Rat) (fc : String)
    (rt wt : Int) (m : SMState) (port : String) (ar : Bool) :
    ((b ∈ SUPPORTED_BAUDRATES ∧ bs ∈ SUPPORTED_BYTESIZES ∧
      (∃ pe, Parity.ofValue p = some pe) ∧
      (∃ se, StopBits.ofValue sb = some se) ∧
      (∃ fe, FlowControl.ofValue fc = some fe) ∧
      0 ≤ rt ∧ rt ≤ 60000 ∧ 0 ≤ wt ∧ wt ≤ 60000) →
      ∃ cfg, validate_and_create_config b bs p sb fc rt wt = .ok cfg ∧
        cfg.baudrate = b ∧ cfg.bytesize = bs ∧ cfg.parity.value = p ∧
        cfg.stopbits.value = sb ∧ cfg.flow_control.value = fc ∧
        cfg.read_timeout_ms = rt ∧ cfg.write_timeout_ms = wt) ∧
    (b ∉ SUPPORTED_BAUDRATES →
      validate_and_create_config b bs p sb fc rt wt =
        .error (.invalidParam "baudrate" .baudrates)) ∧
    (b ∈ SUPPORTED_BAUDRATES → bs ∉ SUPPORTED_BYTESIZES →
      validate_and_create_config b bs p sb fc rt wt =
        .error (.invalidParam "bytesize" .bytesizes)) ∧
    (b ∈ SUPPORTED_BAUDRATES → bs ∈ SUPPORTED_BYTESIZES →
      Parity.ofValue p = none →
      validate_and_create_config b bs p sb fc rt wt =
        .error (.invalidParam "parity" .parityValues)) ∧
    (b ∈ SUPPORTED_BAUDRATES → bs ∈ SUPPORTED_BYTESIZES →
      (∃ pe, Parity.ofValue p = some pe) → StopBits.ofValue sb = none →
      validate_and_create_config b bs p sb fc rt wt =
        .error (.invalidParam "stopbits" .stopbitsValues)) ∧
    (b ∈ SUPPORTED_BAUDRATES → bs ∈ SUPPORTED_BYTESIZES →
      (∃ pe, Parity.ofValue p = some pe) →
      (∃ se, StopBits.ofValue sb = some se) →
      FlowControl.ofValue fc = none →
      validate_and_create_config b bs p sb fc rt wt =
        .error (.invalidParam "flow_control" .flowControlValues)) ∧
    (b ∈ SUPPORTED_BAUDRATES → bs ∈ SUPPORTED_BYTESIZES →
      (∃ pe, Parity.ofValue p = some pe) →
      (∃ se, StopBits.ofValue sb = some se) →
      (∃ fe, FlowControl.ofValue fc = some fe) →
      (rt < 0 ∨ rt > 60000) →
      validate_and_create_config b bs p sb fc rt wt =
        .error (.invalidParam "read_timeout_ms" .timeoutRange)) ∧
    (b ∈ SUPPORTED_BAUDRATES → bs ∈ SUPPORTED_BYTESIZES →
      (∃ pe, Parity.ofValue p = some pe) →
      (∃ se, StopBits.ofValue sb = some se) →
      (∃ fe, FlowControl.ofValue fc = some fe) →
      0 ≤ rt → rt ≤ 60000 → (wt < 0 ∨ wt > 60000) →
      validate_and_create_config b bs p sb fc rt wt =
        .error (.invalidParam "write_timeout_ms" .timeoutRange)) ∧
    (∀ err, validate_and_create_config b bs p sb fc rt wt = .error err →
      ∀ createResult,
        open_port m port b bs p sb fc rt wt ar false createResult =
          .error err) ∧
    (∀ cfg hdl, validate_and_create_config b bs p sb fc rt wt = .ok cfg →
      lookupPort m port = none →
      ∃ st, open_port m port b bs p sb fc rt wt ar false (.ok hdl) =
        .ok (st, setPort m port
          { port := port, handle := hdl, config := cfg,
            reconnecting := false, auto_reconnect := ar }) ∧
        st.config = some cfg) ∧
    (∀ mp, lookupPort m port = some mp →
      ∀ ob obs opa osb ofc ort owt err,
        validate_and_create_config (Option.getD ob mp.config.baudrate)
          (Option.getD obs mp.config.bytesize)
          (Option.getD opa mp.config.parity.value)
          (Option.getD osb mp.config.stopbits.value)
          (Option.getD ofc mp.config.flow_control.value)
          (Option.getD ort mp.config.read_timeout_ms)
          (Option.getD owt mp.config.write_timeout_ms) = .error err →
        set_config m port ob obs opa osb ofc ort owt = .error err) := by
  refine ⟨?_, ?_, ?_, ?_, ?_, ?_, ?_, ?_, ?_, ?_, ?_⟩
  · rintro ⟨hb, hbs, ⟨pe, hpe⟩, ⟨se, hse⟩, ⟨fe, hfe⟩, hrt0, hrt1, hwt0, hwt1⟩
    rw [validate_and_create_config, if_neg (by simpa using hb),
      if_neg (by simpa using hbs), hpe, hse, hfe]
    dsimp only
    rw [if_neg (by omega), if_neg (by omega)]
    refine ⟨_, rfl, rfl, rfl, ?_, ?_, ?_, rfl, rfl⟩
    · cases pe <;> revert hpe <;>
        simp [Parity.ofValue, Parity.value] <;>
        split_ifs <;> simp_all
    · cases se <;> revert hse <;>
        simp [StopBits.ofValue, StopBits.value] <;>
        split_ifs <;> simp_all
    · cases fe <;> revert hfe <;>
        simp [FlowControl.ofValue, FlowControl.value] <;>
        split_ifs <;> simp_all
  · intro hb
    rw [validate_and_create_config, if_pos (by simpa using hb)]
  · intro hb hbs
    rw [validate_and_create_config, if_neg (by simpa using hb),
      if_pos (by simpa using hbs)]
  · intro hb hbs hp
    rw [validate_and_create_config, if_neg (by simpa using hb),
      if_neg (by simpa using hbs), hp]
  · rintro hb hbs ⟨pe, hpe⟩ hsb
    rw [validate_and_create_config, if_neg (by simpa using hb),
      if_neg (by simpa using hbs), hpe, hsb]
  · rintro hb hbs ⟨pe, hpe⟩ ⟨se, hse⟩ hfc
    rw [validate_and_create_config, if_neg (by simpa using hb),
      if_neg (by simpa using hbs), hpe, hse, hfc]
  · rintro hb hbs ⟨pe, hpe⟩ ⟨se, hse⟩ ⟨fe, hfe⟩ hrt
    rw [validate_and_create_config, if_neg (by simpa using hb),
      if_neg (by simpa using hbs), hpe, hse, hfe]
    dsimp only
    rw [if_pos (by omega)]
  · rintro hb hbs ⟨pe, hpe⟩ ⟨se, hse⟩ ⟨fe, hfe⟩ hrt0 hrt1 hwt
    rw [validate_and_create_config, if_neg (by simpa using hb),
      if_neg (by simpa using hbs), hpe, hse, hfe]
    dsimp only
    rw [if_neg (by omega), if_pos (by omega)]
  · intro err herr createResult
    rw [open_port, if_neg (by simp), herr]
  · intro cfg hdl hok habs
    refine ⟨{ port := port, is_open := true, config := some cfg,
              connected := ({ port := port, handle := hdl, config := cfg,
                              auto_reconnect := ar } : ManagedPort).is_connected,
              reconnecting := false }, ?_, rfl⟩
    rw [open_port, if_neg (by simp), hok, habs]
  · intro mp hmp ob obs opa osb ofc ort owt err herr
    rw [set_config, hmp]
    dsimp only
    rw [herr]

/-- C6 (witness): the statement applied to the default configuration
values (validation success, echoed exactly) and, separately, to an
unsupported baud rate, yielding the invalid-parameter error naming
baudrate. -/
theorem C6_validation_witness :
    (∃ cfg, validate_and_create_config 9600 8 "N" 1 "none" 1000 1000 =
        .ok cfg ∧
      cfg.baudrate = 9600 ∧ cfg.bytesize = 8 ∧ cfg.parity.value = "N" ∧
      cfg.stopbits.value = 1 ∧ cfg.flow_control.value = "none" ∧
      cfg.read_timeout_ms = 1000 ∧ cfg.write_timeout_ms = 1000) ∧
    validate_and_create_config 1234 8 "N" 1 "none" 1000 1000 =
      .error (.invalidParam "baudrate" .baudrates) :=
  ⟨(C6_validation 9600 8 "N" 1 "none" 1000 1000 [] "COM1" true).1
      (by refine ⟨by decide, by decide, ⟨.NONE, rfl⟩, ⟨.ONE, ?_⟩,
            ⟨.NONE, rfl⟩, by decide, by decide, by decide, by decide⟩
          rfl),
   (C6_validation 1234 8 "N" 1 "none" 1000 1000 [] "COM1" true).2.1
      (by decide)⟩

end UartMcp
